import Mathlib

/-!
Verification of the OpenAI client core of gptcommit (`src/llms/openai.rs`).

The Rust source is shallowly embedded below:
* strings are Lean `String`s (lists of characters); `str::to_lowercase` and
  `str::trim` are embedded character-wise (the prefixes and whitespace involved
  in the claims are all ASCII);
* the external tokenizer (`tiktoken_rs`) is abstract: the computed remaining
  token budget is a `Nat` parameter of each completion function;
* network transport is a pure stub function from requests to responses, and
  each completion function also returns the number of network calls it made;
* `reqwest`/`backoff` client construction is embedded as the record of
  configuration flags the builder chain sets;
* `anyhow` failures become an explicit error inductive following the failure
  classification of the client.
-/

namespace Gptcommit

/-- Classified failures of the client (`bail!` / `anyhow!` sites in the source,
plus the construction-time validation failures of `OpenAIClient::new`). -/
inductive LlmError where
  | missingApiKey
  | missingModel
  | invalidProxy
  | promptTooLarge
  | emptyResponse
deriving DecidableEq, Repr

/-- Message roles of the chat API (`async_openai::types::Role`). -/
inductive Role where
  | system
  | user
  | assistant
deriving DecidableEq, Repr

/-- A chat message: role plus optional content
(`ChatCompletionRequestMessageArgs` / response message shape). -/
structure ChatMessage where
  role : Role
  content : Option String
deriving DecidableEq, Repr

/-- Legacy completion request (`CreateCompletionRequestArgs`): builder fields
left unset are `none`.  Sampling parameters are rationals standing for the
`f32` literals of the source.  `max_tokens` holds the value of the
`as u16` cast of the computed token budget. -/
structure CreateCompletionRequest where
  model : String
  prompt : String
  max_tokens : Option Nat
  temperature : Option ℚ
  top_p : Option ℚ
  frequency_penalty : Option ℚ
  presence_penalty : Option ℚ
deriving DecidableEq, Repr

/-- Chat completion request (`CreateChatCompletionRequestArgs`): builder fields
left unset are `none`. -/
structure CreateChatCompletionRequest where
  model : String
  messages : List ChatMessage
  temperature : Option ℚ
  top_p : Option ℚ
  frequency_penalty : Option ℚ
  presence_penalty : Option ℚ
deriving DecidableEq, Repr

/-- One choice of a legacy completion response: its `text` field is a plain
string (never absent) in the provider's response type. -/
structure CompletionChoice where
  text : String
deriving DecidableEq, Repr

/-- Legacy completion response: a list of choices. -/
structure CompletionResponse where
  choices : List CompletionChoice
deriving DecidableEq, Repr

/-- One choice of a chat completion response: the message's `content` is
optional in the provider's response type. -/
structure ChatChoice where
  message : ChatMessage
deriving DecidableEq, Repr

/-- Chat completion response: a list of choices. -/
structure ChatCompletionResponse where
  choices : List ChatChoice
deriving DecidableEq, Repr

/-- Character-wise lowercasing, embedding `str::to_lowercase` (ASCII-faithful). -/
def toLowercase (s : String) : String :=
  ⟨s.data.map Char.toLower⟩

/-- `starts_with` on the underlying character lists (embedding of
`str::starts_with`, written so that it reduces in the kernel). -/
def startsWithChars : List Char → List Char → Bool
  | _, [] => true
  | [], _ :: _ => false
  | c :: cs, p :: ps => c == p && startsWithChars cs ps

/-- Case-insensitive "starts with": both sides lowercased before the prefix
comparison.  This is the spec-side notion C1 compares the code against. -/
def startsWithCI (s p : String) : Bool :=
  startsWithChars (s.data.map Char.toLower) (p.data.map Char.toLower)

/-- ASCII whitespace, as trimmed by `str::trim` on the strings at issue. -/
def isWhitespaceChar (c : Char) : Bool :=
  c == ' ' || c == '\t' || c == '\n' || c == '\r'

/-- Embedding of `str::trim`: drop whitespace from both ends. -/
def trimChars (s : String) : String :=
  ⟨((s.data.dropWhile isWhitespaceChar).reverse.dropWhile isWhitespaceChar).reverse⟩

/-- `COMPLETION_TOKEN_LIMIT` of the source: the fixed 100-token floor. -/
def COMPLETION_TOKEN_LIMIT : Nat := 100

/-- `OpenAIClient::should_use_chat_completion`: lowercase the model identifier
and test the two chat-model literals as prefixes. -/
def should_use_chat_completion (model : String) : Bool :=
  startsWithChars (toLowercase model).data "gpt-4".data
    || startsWithChars (toLowercase model).data "gpt-3.5-turbo".data

/-- The legacy request built by `OpenAIClient::get_completions` (lines
109-117): model, prompt, `max_tokens(prompt_token_limit as u16)` — the cast
truncates modulo 2^16 — and the fixed sampling parameters. -/
def completion_request (model prompt : String) (prompt_token_limit : Nat) :
    CreateCompletionRequest :=
  { model := model
    prompt := prompt
    max_tokens := some (prompt_token_limit % 65536)
    temperature := some (1 / 2 : ℚ)
    top_p := some 1
    frequency_penalty := some 0
    presence_penalty := some 0 }

/-- The chat request built by `OpenAIClient::get_chat_completions` (lines
150-153): only the model and the single user-role message are set; every
sampling-parameter builder field is left unset. -/
def chat_request (model prompt : String) : CreateChatCompletionRequest :=
  { model := model
    messages := [{ role := Role.user, content := some prompt }]
    temperature := none
    top_p := none
    frequency_penalty := none
    presence_penalty := none }

/-- `OpenAIClient::get_completions`.  `budget` is the value the external
tokenizer call `get_completion_max_tokens(model, prompt)` returned; `transport`
is the network as a stub.  The second component counts network calls made. -/
def get_completions (budget : Nat)
    (transport : CreateCompletionRequest → CompletionResponse)
    (model prompt : String) : Except LlmError String × Nat :=
  if budget < COMPLETION_TOKEN_LIMIT then
    (Except.error LlmError.promptTooLarge, 0)
  else
    let response := transport (completion_request model prompt budget)
    match response.choices with
    | [] => (Except.error LlmError.emptyResponse, 1)
    | c :: _ => (Except.ok c.text, 1)

/-- `OpenAIClient::get_chat_completions`.  `budget` is the value of the
external tokenizer call `get_chat_completion_max_tokens(model, messages)`. -/
def get_chat_completions (budget : Nat)
    (transport : CreateChatCompletionRequest → ChatCompletionResponse)
    (model prompt : String) : Except LlmError String × Nat :=
  if budget < COMPLETION_TOKEN_LIMIT then
    (Except.error LlmError.promptTooLarge, 0)
  else
    let response := transport (chat_request model prompt)
    match response.choices with
    | [] => (Except.error LlmError.emptyResponse, 1)
    | choice :: _ =>
      match choice.message.content with
      | none => (Except.error LlmError.emptyResponse, 1)
      | some content => (Except.ok content, 1)

/-- `LlmClient::completions` for `OpenAIClient` (lines 179-186): route by
`should_use_chat_completion`, then trim the successful result. -/
def completions (model : String) (budget : Nat)
    (transportLegacy : CreateCompletionRequest → CompletionResponse)
    (transportChat : CreateChatCompletionRequest → ChatCompletionResponse)
    (prompt : String) : Except LlmError String × Nat :=
  let r :=
    if should_use_chat_completion model then
      get_chat_completions budget transportChat model prompt
    else
      get_completions budget transportLegacy model prompt
  (r.1.map trimChars, r.2)

/-- Modelled from the spec: the fixed identifying user-agent string
(`HTTP_USER_AGENT` in `util.rs`, which is not part of the embedded core); the
claims only require it to be one fixed constant. -/
def HTTP_USER_AGENT : String := "gptcommit"

/-- TLS protocol versions (`reqwest::tls::Version`). -/
inductive TlsVersion where
  | tls1_0
  | tls1_1
  | tls1_2
  | tls1_3
deriving DecidableEq, Repr

/-- The `reqwest::Client::builder()` configuration record: each field is what
the corresponding builder method sets; defaults are the builder's defaults. -/
structure HttpClientBuilder where
  gzip : Bool := false
  brotli : Bool := false
  timeout_secs : Option Nat := none
  user_agent : Option String := none
  http2_prior_knowledge : Bool := false
  https_only : Bool := false
  http2_adaptive_window : Bool := false
  tcp_keepalive_secs : Option Nat := none
  http2_keep_alive_interval_secs : Option Nat := none
  http2_keep_alive_while_idle : Bool := false
  min_tls_version : Option TlsVersion := none
  proxy : Option String := none
deriving DecidableEq, Repr

/-- The retry policy built by `backoff::ExponentialBackoffBuilder` in
`OpenAIClient::new` (lines 83-85). -/
structure BackoffPolicy where
  exponential : Bool
  max_elapsed_secs : Option Nat
deriving DecidableEq, Repr

/-- `settings::OpenAISettings`: the configuration consumed by
`OpenAIClient::new`.  All fields are optional in the source. -/
structure OpenAISettings where
  api_base : Option String := none
  api_key : Option String := none
  model : Option String := none
  proxy : Option String := none
  retries : Option Nat := none

/-- The constructed client: the resolved model identifier, the resolved API
base, the built HTTP transport configuration and the optional backoff policy
(the source stores the latter three inside `Client<OpenAIConfig>`). -/
structure OpenAIClient where
  model : String
  api_base : String
  http : HttpClientBuilder
  backoff : Option BackoffPolicy
deriving DecidableEq, Repr

/-- The proxy step of `OpenAIClient::new` (lines 75-79): a non-empty proxy
string is parsed by `Proxy::all` — embedded as the external well-formedness
test `is_valid_url` — and attached to the builder; a parse failure aborts
construction. -/
def proxy_result (is_valid_url : String → Bool) (proxy : Option String)
    (http : HttpClientBuilder) : Except LlmError HttpClientBuilder :=
  match proxy with
  | some p =>
    if p ≠ "" then
      if is_valid_url p then Except.ok { http with proxy := some p }
      else Except.error LlmError.invalidProxy
    else Except.ok http
  | none => Except.ok http

/-- `OpenAIClient::new` (lines 38-92).  `is_valid_url` stands for the external
URL parser used by `Proxy::all`. -/
def OpenAIClient.new (is_valid_url : String → Bool) (settings : OpenAISettings) :
    Except LlmError OpenAIClient :=
  let api_base := settings.api_base.getD ""
  let api_key := settings.api_key.getD ""
  if api_key = "" then Except.error LlmError.missingApiKey
  else
    let http_base : HttpClientBuilder :=
      { gzip := true
        brotli := true
        timeout_secs := some 60
        user_agent := some HTTP_USER_AGENT }
    let http_client :=
      if api_base = "" then
        { http_base with
          http2_prior_knowledge := true
          https_only := true
          http2_adaptive_window := true
          tcp_keepalive_secs := some 60
          http2_keep_alive_interval_secs := some 60
          http2_keep_alive_while_idle := true
          min_tls_version := some TlsVersion.tls1_2 }
      else http_base
    let model := settings.model.getD ""
    if api_base = "" ∧ model = "" then Except.error LlmError.missingModel
    else
      match proxy_result is_valid_url settings.proxy http_client with
      | Except.error e => Except.error e
      | Except.ok http_final =>
        Except.ok
          { model := model
            api_base := api_base
            http := http_final
            backoff :=
              if 0 < settings.retries.getD 0 then
                some { exponential := true, max_elapsed_secs := some 60 }
              else none }

/-- The "optimized" transport profile of lines 59-69: the conjunction of every
flag the `if api_base.is_empty()` branch sets. -/
def optimized_profile (h : HttpClientBuilder) : Prop :=
  h.http2_prior_knowledge = true ∧ h.https_only = true ∧
    h.http2_adaptive_window = true ∧ h.tcp_keepalive_secs = some 60 ∧
    h.http2_keep_alive_interval_secs = some 60 ∧
    h.http2_keep_alive_while_idle = true ∧
    h.min_tls_version = some TlsVersion.tls1_2

instance (h : HttpClientBuilder) : Decidable (optimized_profile h) := by
  unfold optimized_profile
  infer_instance

/-- Success test for construction results. -/
def constructionSucceeds : Except LlmError OpenAIClient → Bool
  | Except.ok _ => true
  | Except.error _ => false

/-- A URL validator accepting everything (stub collaborator for witnesses). -/
def allValid : String → Bool := fun _ => true

/-- Stub legacy transport returning no choices. -/
def stubLegacyEmpty : CreateCompletionRequest → CompletionResponse :=
  fun _ => { choices := [] }

/-- Stub chat transport returning no choices. -/
def stubChatEmpty : CreateChatCompletionRequest → ChatCompletionResponse :=
  fun _ => { choices := [] }

/-- Stub legacy transport echoing a fixed padded string as its first choice. -/
def stubLegacyEcho : CreateCompletionRequest → CompletionResponse :=
  fun _ => { choices := [{ text := "  hello world  \n" }] }

/-- The client produced from an empty API base, the model "gpt-4" and no
retries (used to witness the transport-configuration claims). -/
def clientDefaultBase : OpenAIClient :=
  { model := "gpt-4"
    api_base := ""
    http :=
      { gzip := true
        brotli := true
        timeout_secs := some 60
        user_agent := some HTTP_USER_AGENT
        http2_prior_knowledge := true
        https_only := true
        http2_adaptive_window := true
        tcp_keepalive_secs := some 60
        http2_keep_alive_interval_secs := some 60
        http2_keep_alive_while_idle := true
        min_tls_version := some TlsVersion.tls1_2
        proxy := none }
    backoff := none }

/-- The same client with three retries configured, so a backoff policy is
attached (used to witness the retry-policy claim). -/
def clientWithRetries : OpenAIClient :=
  { clientDefaultBase with
    backoff := some { exponential := true, max_elapsed_secs := some 60 } }

/-- C1: `should_use_chat_completion` returns `true` exactly when the model
identifier, compared case-insensitively, starts with "gpt-4" or with
"gpt-3.5-turbo", and `false` for every other identifier (empty or not).  The
function is a pure Lean function of `m` alone, so its result depends only on
`m`. -/
theorem C1_strategy_selector (m : String) :
    should_use_chat_completion m = true ↔
      (startsWithCI m "gpt-4" = true ∨ startsWithCI m "gpt-3.5-turbo" = true) := by
  have h4 : "gpt-4".data.map Char.toLower = "gpt-4".data := by decide
  have h35 : "gpt-3.5-turbo".data.map Char.toLower = "gpt-3.5-turbo".data := by decide
  simp [should_use_chat_completion, startsWithCI, toLowercase, h4, h35]

/-- C2: on both paths, a computed budget strictly below the fixed floor
`COMPLETION_TOKEN_LIMIT = 100` makes the call fail with the prompt-too-large
error and perform zero network calls; a budget at least 100 leads to exactly
one network call. -/
theorem C2_token_floor (budget : Nat)
    (tL : CreateCompletionRequest → CompletionResponse)
    (tH : CreateChatCompletionRequest → ChatCompletionResponse)
    (model prompt : String) :
    (budget < COMPLETION_TOKEN_LIMIT →
      get_completions budget tL model prompt =
          (Except.error LlmError.promptTooLarge, 0) ∧
        get_chat_completions budget tH model prompt =
          (Except.error LlmError.promptTooLarge, 0)) ∧
    (COMPLETION_TOKEN_LIMIT ≤ budget →
      (get_completions budget tL model prompt).2 = 1 ∧
        (get_chat_completions budget tH model prompt).2 = 1) ∧
    COMPLETION_TOKEN_LIMIT = 100 := by
  refine ⟨fun h => ?_, fun h => ?_, rfl⟩
  · constructor <;> simp [get_completions, get_chat_completions, h]
  · have h' : ¬ budget < COMPLETION_TOKEN_LIMIT := not_lt.mpr h
    constructor
    · simp only [get_completions, if_neg h']
      split <;> rfl
    · simp only [get_chat_completions, if_neg h']
      split
      · rfl
      · split <;> rfl

/-- Witness for C2 at concrete inputs: budget 99 is rejected with zero calls,
budget 150 makes exactly one call. -/
theorem C2_token_floor_witness :
    get_completions 99 stubLegacyEmpty "text-davinci-003" "p" =
        (Except.error LlmError.promptTooLarge, 0) ∧
      (get_completions 150 stubLegacyEmpty "text-davinci-003" "p").2 = 1 := by
  constructor
  · exact ((C2_token_floor 99 stubLegacyEmpty stubChatEmpty "text-davinci-003" "p").1
      (by decide)).1
  · exact ((C2_token_floor 150 stubLegacyEmpty stubChatEmpty "text-davinci-003" "p").2.1
      (by decide)).1

/-- C3 counterexample: the chat request built for a concrete model and prompt
does not carry temperature 0.5 — its temperature builder field is left unset
(`none`), refuting the claim that the chat path sends the fixed sampling
parameters. -/
theorem C3_counterexample :
    (chat_request "gpt-4" "Summarize this diff").temperature ≠ some (1 / 2 : ℚ) := by
  simp [chat_request]

/-- C3 (amended): the chat request carries only the model and the single
user-role message built from the prompt, with every sampling-parameter field
unset; the fixed sampling parameters (temperature 0.5, top-p 1.0, zero
frequency/presence penalty) are set only on the legacy request. -/
theorem C3_chat_request_fields (model prompt : String) (budget : Nat) :
    chat_request model prompt =
      { model := model
        messages := [{ role := Role.user, content := some prompt }]
        temperature := none
        top_p := none
        frequency_penalty := none
        presence_penalty := none } ∧
    (completion_request model prompt budget).temperature = some (1 / 2 : ℚ) ∧
    (completion_request model prompt budget).top_p = some 1 ∧
    (completion_request model prompt budget).frequency_penalty = some 0 ∧
    (completion_request model prompt budget).presence_penalty = some 0 :=
  ⟨rfl, rfl, rfl, rfl, rfl⟩

/-- C4 counterexample: at the admissible budget 70000 the legacy request's
max-tokens value is 70000 mod 2^16 = 4464, not the full budget — the
`as u16` cast truncates, refuting the claim for arbitrary budget values. -/
theorem C4_counterexample :
    COMPLETION_TOKEN_LIMIT ≤ 70000 ∧
      (completion_request "text-davinci-003" "q" 70000).max_tokens ≠ some 70000 := by
  constructor
  · decide
  · decide

/-- C4 (amended): on the legacy path with budget at least 100, the max-tokens
value placed in the request is the computed budget reduced modulo 2^16 (the
`as u16` cast); it equals the entire budget whenever the budget is below
65536, and the request is then sent (exactly one network call). -/
theorem C4_max_tokens (model prompt : String) (budget : Nat)
    (tL : CreateCompletionRequest → CompletionResponse)
    (h : COMPLETION_TOKEN_LIMIT ≤ budget) :
    (completion_request model prompt budget).max_tokens = some (budget % 65536) ∧
    (budget < 65536 → (completion_request model prompt budget).max_tokens = some budget) ∧
    (get_completions budget tL model prompt).2 = 1 := by
  refine ⟨rfl, fun hb => ?_, ?_⟩
  · simp [completion_request, Nat.mod_eq_of_lt hb]
  · simp only [get_completions, if_neg (not_lt.mpr h)]
    split <;> rfl

/-- Witness for C4 (amended) at budget 4000: the request offers the full
budget as max-tokens. -/
theorem C4_max_tokens_witness :
    (completion_request "text-davinci-003" "q" 4000).max_tokens = some 4000 :=
  (C4_max_tokens "text-davinci-003" "q" 4000 stubLegacyEmpty (by decide)).2.1 (by decide)

/-- C5: with an admissible budget, the legacy path fails with the
empty-response error exactly when the response has zero choices and otherwise
returns the first choice's text; the chat path fails with the empty-response
error exactly when the response has zero choices or the first choice's message
has no content, and otherwise returns that content.  Extraction never returns
partial text: each clause is total. -/
theorem C5_empty_response (budget : Nat)
    (tL : CreateCompletionRequest → CompletionResponse)
    (tH : CreateChatCompletionRequest → ChatCompletionResponse)
    (model prompt : String)
    (h : COMPLETION_TOKEN_LIMIT ≤ budget) :
    ((get_completions budget tL model prompt).1 =
        Except.error LlmError.emptyResponse ↔
      (tL (completion_request model prompt budget)).choices = []) ∧
    (∀ c rest, (tL (completion_request model prompt budget)).choices = c :: rest →
      (get_completions budget tL model prompt).1 = Except.ok c.text) ∧
    ((get_chat_completions budget tH model prompt).1 =
        Except.error LlmError.emptyResponse ↔
      ((tH (chat_request model prompt)).choices = [] ∨
        ∃ c rest, (tH (chat_request model prompt)).choices = c :: rest ∧
          c.message.content = none)) ∧
    (∀ c rest text, (tH (chat_request model prompt)).choices = c :: rest →
      c.message.content = some text →
      (get_chat_completions budget tH model prompt).1 = Except.ok text) := by
  have h' : ¬ budget < COMPLETION_TOKEN_LIMIT := not_lt.mpr h
  refine ⟨?_, ?_, ?_, ?_⟩
  · simp only [get_completions, if_neg h']
    cases hc : (tL (completion_request model prompt budget)).choices with
    | nil => simp
    | cons c rest => simp
  · intro c rest hc
    simp [get_completions, if_neg h', hc]
  · simp only [get_chat_completions, if_neg h']
    cases hc : (tH (chat_request model prompt)).choices with
    | nil => simp
    | cons c rest =>
      cases hcc : c.message.content with
      | none => simp [hcc]
      | some t => simp [hcc]
  · intro c rest t hc hcc
    simp [get_chat_completions, if_neg h', hc, hcc]

/-- Witness for C5 at a concrete empty-choices stub: the legacy path fails
with the empty-response error. -/
theorem C5_empty_response_witness :
    (get_completions 150 stubLegacyEmpty "text-davinci-003" "p").1 =
      Except.error LlmError.emptyResponse :=
  ((C5_empty_response 150 stubLegacyEmpty stubChatEmpty "text-davinci-003" "p"
    (by decide)).1).mpr rfl

/-- C6: whenever the selected path succeeds with extracted text `t`, the
facade returns exactly `trimChars t` — the text with leading and trailing
whitespace removed and everything else untouched. -/
theorem C6_trim_result (model prompt : String) (budget : Nat)
    (tL : CreateCompletionRequest → CompletionResponse)
    (tH : CreateChatCompletionRequest → ChatCompletionResponse)
    (t : String)
    (h : (if should_use_chat_completion model then
            get_chat_completions budget tH model prompt
          else get_completions budget tL model prompt).1 = Except.ok t) :
    (completions model budget tL tH prompt).1 = Except.ok (trimChars t) := by
  simp [completions, h, Except.map]

/-- Witness for C6: a stub echoing "  hello world  " with a trailing newline
as the first choice's text makes the facade return "hello world". -/
theorem C6_trim_result_witness :
    (completions "text-davinci-003" 4000 stubLegacyEcho stubChatEmpty
        "Summarize this diff").1 =
      Except.ok "hello world" := by
  have h := C6_trim_result "text-davinci-003" "Summarize this diff" 4000 stubLegacyEcho
    stubChatEmpty "  hello world  \n" rfl
  exact h.trans (congrArg Except.ok (by decide))

/-- A successful proxy step returns the builder unchanged or with only the
proxy field set. -/
theorem proxy_result_ok_shape (v : String → Bool) (px : Option String)
    (http http' : HttpClientBuilder)
    (h : proxy_result v px http = Except.ok http') :
    http' = http ∨ ∃ p, http' = { http with proxy := some p } := by
  unfold proxy_result at h
  cases px with
  | none =>
    injection h with h
    exact Or.inl h.symm
  | some p =>
    by_cases hp : p = ""
    · simp [hp] at h
      exact Or.inl h.symm
    · by_cases hv : v p = true
      · simp [hp, hv] at h
        exact Or.inr ⟨p, h.symm⟩
      · simp [hp, hv] at h

/-- A successful proxy step preserves every builder field except the proxy. -/
theorem proxy_result_preserves (v : String → Bool) (px : Option String)
    (http http' : HttpClientBuilder)
    (h : proxy_result v px http = Except.ok http') :
    http'.gzip = http.gzip ∧ http'.brotli = http.brotli ∧
      http'.timeout_secs = http.timeout_secs ∧
      http'.user_agent = http.user_agent ∧
      http'.http2_prior_knowledge = http.http2_prior_knowledge ∧
      http'.https_only = http.https_only ∧
      http'.http2_adaptive_window = http.http2_adaptive_window ∧
      http'.tcp_keepalive_secs = http.tcp_keepalive_secs ∧
      http'.http2_keep_alive_interval_secs = http.http2_keep_alive_interval_secs ∧
      http'.http2_keep_alive_while_idle = http.http2_keep_alive_while_idle ∧
      http'.min_tls_version = http.min_tls_version := by
  rcases proxy_result_ok_shape v px http http' h with rfl | ⟨p, rfl⟩ <;> simp

/-- C7 counterexample: settings with an empty key, empty base and empty model
fail with the missing-api-key error, not the missing-model error the claim's
"exactly when" clause demands for an empty base and model. -/
theorem C7_counterexample :
    OpenAIClient.new allValid
        { api_base := some "", api_key := some "", model := some "", proxy := none,
          retries := none } =
      Except.error LlmError.missingApiKey ∧
    LlmError.missingApiKey ≠ LlmError.missingModel := by
  exact ⟨rfl, by decide⟩

/-- C7 (amended): the validation checks apply in order — construction fails
with the missing-api-key error exactly when the key is empty; with the
missing-model error exactly when the key is non-empty and both base and model
are empty; with the invalid-proxy error exactly when the earlier checks pass
and a non-empty proxy string fails URL parsing; and it succeeds for an empty
base with a non-empty model, non-empty key and valid-or-absent proxy. -/
theorem C7_construction_validation (v : String → Bool) (s : OpenAISettings) :
    (OpenAIClient.new v s = Except.error LlmError.missingApiKey ↔
      s.api_key.getD "" = "") ∧
    (OpenAIClient.new v s = Except.error LlmError.missingModel ↔
      s.api_key.getD "" ≠ "" ∧ s.api_base.getD "" = "" ∧ s.model.getD "" = "") ∧
    (OpenAIClient.new v s = Except.error LlmError.invalidProxy ↔
      s.api_key.getD "" ≠ "" ∧
        ¬(s.api_base.getD "" = "" ∧ s.model.getD "" = "") ∧
        ∃ p, s.proxy = some p ∧ p ≠ "" ∧ v p = false) ∧
    (s.api_key.getD "" ≠ "" ∧ s.api_base.getD "" = "" ∧ s.model.getD "" ≠ "" ∧
        (∀ p, s.proxy = some p → p ≠ "" → v p = true) →
      constructionSucceeds (OpenAIClient.new v s) = true) := by
  by_cases hk : s.api_key.getD "" = ""
  · refine ⟨?_, ?_, ?_, ?_⟩ <;> simp [OpenAIClient.new, hk]
  · by_cases hbm : s.api_base.getD "" = "" ∧ s.model.getD "" = ""
    · refine ⟨?_, ?_, ?_, ?_⟩ <;>
        simp [OpenAIClient.new, hk, hbm.1, hbm.2]
    · cases hpx : s.proxy with
      | none =>
        refine ⟨?_, ?_, ?_, ?_⟩ <;>
          simp [OpenAIClient.new, proxy_result, hk, hbm, hpx, constructionSucceeds]
      | some p =>
        by_cases hp : p = ""
        · refine ⟨?_, ?_, ?_, ?_⟩ <;>
            simp [OpenAIClient.new, proxy_result, hk, hbm, hpx, hp, constructionSucceeds]
        · cases hv : v p with
          | true =>
            refine ⟨?_, ?_, ?_, ?_⟩ <;>
              simp [OpenAIClient.new, proxy_result, hk, hbm, hpx, hp, hv,
                constructionSucceeds]
          | false =>
            refine ⟨?_, ?_, ?_, ?_⟩
            · simp [OpenAIClient.new, proxy_result, hk, hbm, hpx, hp, hv]
            · simp [OpenAIClient.new, proxy_result, hk, hbm, hpx, hp, hv]
            · simp [OpenAIClient.new, proxy_result, hk, hbm, hpx, hp, hv]
            · rintro ⟨-, -, -, hall⟩
              exact absurd (hall p rfl hp) (by simp [hv])

/-- Witness for C7 (amended): empty base, non-empty model and key, no proxy —
construction succeeds. -/
theorem C7_construction_validation_witness :
    constructionSucceeds (OpenAIClient.new allValid
      { api_base := some "", api_key := some "k", model := some "gpt-4", proxy := none,
        retries := none }) = true := by
  apply (C7_construction_validation allValid _).2.2.2
  refine ⟨by decide, rfl, by decide, ?_⟩
  intro p hp
  simp at hp

/-- C8: a successfully constructed client carries the exponential backoff
policy with the 60-second elapsed-time ceiling exactly when the configured
retry count is positive, and carries no policy when the retry count is zero or
unset.  Both completion endpoints invoke the same stored client, so the policy
(or its absence) applies to them uniformly. -/
theorem C8_backoff_policy (v : String → Bool) (s : OpenAISettings) (c : OpenAIClient)
    (h : OpenAIClient.new v s = Except.ok c) :
    (c.backoff = some { exponential := true, max_elapsed_secs := some 60 } ↔
      0 < s.retries.getD 0) ∧
    (s.retries.getD 0 = 0 → c.backoff = none) := by
  simp only [OpenAIClient.new] at h
  split at h
  · exact absurd h (by simp)
  · split at h
    · exact absurd h (by simp)
    · split at h
      · exact absurd h (by simp)
      · injection h with h
        subst h
        dsimp only
        refine ⟨?_, ?_⟩ <;> split
        · simp_all
        · simp_all
        · simp_all
          omega
        · simp_all

/-- Witness for C8: with three retries configured the constructed client holds
the 60-second exponential backoff policy. -/
theorem C8_backoff_policy_witness :
    clientWithRetries.backoff =
      some { exponential := true, max_elapsed_secs := some 60 } :=
  (C8_backoff_policy allValid
    { api_base := none, api_key := some "k", model := some "gpt-4", proxy := none,
      retries := some 3 }
    clientWithRetries rfl).1.mpr (by decide)

/-- C9: every successfully constructed client's transport enables gzip and
brotli decompression, the fixed user-agent and the 60-second timeout, and it
satisfies the optimized profile (HTTPS-only, HTTP/2 prior knowledge, adaptive
window, TCP keep-alive 60s, HTTP/2 keep-alive ping 60s while idle, minimum
TLS 1.2) exactly when the API base is empty. -/
theorem C9_transport_profile (v : String → Bool) (s : OpenAISettings) (c : OpenAIClient)
    (h : OpenAIClient.new v s = Except.ok c) :
    c.http.gzip = true ∧ c.http.brotli = true ∧ c.http.timeout_secs = some 60 ∧
      c.http.user_agent = some HTTP_USER_AGENT ∧
      (optimized_profile c.http ↔ s.api_base.getD "" = "") := by
  simp only [OpenAIClient.new] at h
  split at h
  · exact absurd h (by simp)
  · split at h
    · exact absurd h (by simp)
    · split at h
      · exact absurd h (by simp)
      · rename_i http_final hpr
        injection h with h
        subst h
        dsimp only
        by_cases hb : s.api_base.getD "" = ""
        · rw [if_pos hb] at hpr
          obtain ⟨g, b, ts, ua, pk, ho, aw, tk, ki, kw, tls⟩ :=
            proxy_result_preserves _ _ _ _ hpr
          refine ⟨?_, ?_, ?_, ?_, ?_⟩ <;> simp_all [optimized_profile]
        · rw [if_neg hb] at hpr
          obtain ⟨g, b, ts, ua, pk, ho, aw, tk, ki, kw, tls⟩ :=
            proxy_result_preserves _ _ _ _ hpr
          refine ⟨?_, ?_, ?_, ?_, ?_⟩ <;> simp_all [optimized_profile]

/-- Witness for C9: the client built from an empty API base satisfies the
optimized transport profile. -/
theorem C9_transport_profile_witness : optimized_profile clientDefaultBase.http :=
  (C9_transport_profile allValid
    { api_base := none, api_key := some "k", model := some "gpt-4", proxy := none,
      retries := none }
    clientDefaultBase rfl).2.2.2.2.mpr rfl

/-- C10: the empty model identifier is not routed to the chat path —
`should_use_chat_completion` returns `false` on it, so the facade on a client
holding the empty model always takes the legacy-completion path. -/
theorem C10_empty_model_legacy_path :
    should_use_chat_completion "" = false ∧
    ∀ (budget : Nat) (tL : CreateCompletionRequest → CompletionResponse)
      (tH : CreateChatCompletionRequest → ChatCompletionResponse) (prompt : String),
      completions "" budget tL tH prompt =
        ((get_completions budget tL "" prompt).1.map trimChars,
          (get_completions budget tL "" prompt).2) := by
  have hfalse : should_use_chat_completion "" = false := rfl
  refine ⟨rfl, ?_⟩
  intro budget tL tH prompt
  simp [completions, hfalse]

end Gptcommit
